import Mathlib

/-!
Shallow embedding of the document-structurer pipeline (src/app.py).

The program has three stages plus an orchestrating UI handler:
- get_pdf_text (lines 26-32): pypdf page loop concatenating page text;
- process_document (lines 34-73): one structured-output model call;
- create_formatted_excel (lines 75-115): pandas + xlsxwriter rendering;
- the process-button handler (lines 143-177): try/except orchestration.

Pure functions become Lean functions; the pypdf parse and the network
call, which live outside this repository, are abstracted as explicit
inputs (a parse outcome, a callModel function) so that the control flow
written in src/app.py is modelled exactly.
-/

/-- DataPoint (src/app.py lines 11-18): one row of the final sheet.
key and value are required strings; comments is Optional. -/
structure DataPoint where
  key : String
  value : String
  comments : Option String
deriving DecidableEq, Repr

/-- ExtractedData (src/app.py lines 20-22): the record collection. -/
structure ExtractedData where
  entries : List DataPoint
deriving DecidableEq, Repr

/-- Failure kinds raised by the pypdf layer when a byte stream cannot be
read as a PDF (corrupt stream, encrypted without password). -/
inductive PdfError where
  | corrupt
  | encrypted
deriving DecidableEq, Repr

/-- The outcome of handing a byte stream to pypdf PdfReader: either the
reader raises, or it yields the list of per-page extracted texts in page
order; a page with no extractable text yields the empty string. -/
inductive PdfInput where
  | invalid (e : PdfError)
  | doc (pages : List String)
deriving DecidableEq, Repr

/-- get_pdf_text (src/app.py lines 26-32): builds text by the loop
text += page.extract_text() + newline over reader.pages. A reader
exception propagates (the function has no handler of its own). -/
def get_pdf_text : PdfInput → Except PdfError String
  | PdfInput.invalid e => Except.error e
  | PdfInput.doc pages =>
      Except.ok (pages.foldl (fun text page => text ++ (page ++ "\n")) "")

/-- The page-separator count of a string: occurrences of the newline
separator character. Each page contributes one terminating separator, so
this is the number of separator-delimited segments of the output. -/
def numSegments (s : String) : Nat :=
  s.data.count '\n'

/-- The output shape described by the spec wording for the extractor:
each page text followed by a newline separator, concatenated in page
order (stated independently of the source loop, for comparison). -/
def pagesJoined : List String → String
  | [] => ""
  | p :: ps => p ++ "\n" ++ pagesJoined ps

/-- A seekable byte stream as handed to PdfReader: underlying bytes plus
a read position. -/
structure ByteStream where
  data : List Nat
  pos : Nat
deriving DecidableEq, Repr

/-- PdfReader consumes a stream by reading only: the parse outcome is a
function of the bytes alone; the read position advances but the bytes
are never written. -/
def readPdf (parse : List Nat → PdfInput) (s : ByteStream) :
    PdfInput × ByteStream :=
  (parse s.data, { data := s.data, pos := s.data.length })

/-- get_pdf_text applied to a byte stream, with the stream state passed
explicitly: PdfReader is run on the stream, then the page loop runs. -/
def get_pdf_textS (parse : List Nat → PdfInput) (s : ByteStream) :
    Except PdfError String × ByteStream :=
  let r := readPdf parse s
  (get_pdf_text r.1, r.2)

/-- A pandas DataFrame as used here: column labels plus rows of cells; a
missing cell (None comments becomes NaN) is none. -/
structure DataFrame where
  columns : List String
  rows : List (List (Option String))
deriving DecidableEq, Repr

/-- Lines 156-158: data_dicts = [item.dict() for item in result.entries];
df = pd.DataFrame(data_dicts). On an empty list pandas yields a frame
with no columns and no rows; on a non-empty list the columns follow the
dict insertion order of the schema fields (key, value, comments). -/
def recordsToDataFrame (entries : List DataPoint) : DataFrame :=
  match entries with
  | [] => { columns := [], rows := [] }
  | _ =>
      { columns := ["key", "value", "comments"],
        rows := entries.map (fun d => [some d.key, some d.value, d.comments]) }

/-- An xlsxwriter cell format: the option dictionary passed to
workbook.add_format. -/
structure CellFormat where
  bold : Bool
  text_wrap : Bool
  valign : String
  fg_color : Option String
  font_color : Option String
  border : Nat
deriving DecidableEq, Repr

/-- One populated worksheet cell: its value (none = blank) and an
explicit cell-level format when one was written with the cell. -/
structure Cell where
  value : Option String
  format : Option CellFormat
deriving DecidableEq, Repr

/-- One worksheet.set_column call: column range, width, and the column
default format applied to cells without an explicit format. -/
structure ColumnSpec where
  range : String
  width : Nat
  cformat : CellFormat
deriving DecidableEq, Repr

/-- A worksheet: name, the populated rows of cells in order, and the
column specifications. -/
structure Worksheet where
  name : String
  grid : List (List Cell)
  columnSpecs : List ColumnSpec
deriving DecidableEq, Repr

/-- A workbook: the sheets written to the output buffer. -/
structure Workbook where
  sheets : List Worksheet
deriving DecidableEq, Repr

/-- The header format of src/app.py lines 91-98. -/
def header_format : CellFormat :=
  { bold := true, text_wrap := true, valign := "top",
    fg_color := some "#4F81BD", font_color := some "white", border := 1 }

/-- The body format of src/app.py lines 100-104. -/
def body_format : CellFormat :=
  { bold := false, text_wrap := true, valign := "top",
    fg_color := none, font_color := none, border := 1 }

/-- The value dispatch of the generic xlsxwriter write() entry point,
through which both pandas to_excel and the header loop emit cells: a
missing value and the empty string are both routed to write_blank, which
stores no value in the cell; any other string is stored verbatim. -/
def writeValue : Option String → Option String
  | none => none
  | some s => if s = "" then none else some s

/-- create_formatted_excel (src/app.py lines 75-115). to_excel writes the
column labels as row 0 and the data rows below (nothing at all when the
frame has no columns); the loop over dataframe.columns.values then
rewrites each row-0 cell with header_format, so row 0 ends up holding the
column labels with header_format. Every cell goes through the write()
dispatch (writeValue), so an empty-string value, like a missing one, is
stored as a blank cell; the cell itself is still emitted with its row,
so the grid shape is unaffected. Body cells carry no cell-level format;
the three set_column calls attach body_format as the column default for
columns A, B, C regardless of the frame shape. No validation of any kind
is performed on the frame. -/
def create_formatted_excel (dataframe : DataFrame) : Workbook :=
  let headerRow :=
    dataframe.columns.map (fun c => Cell.mk (writeValue (some c)) (some header_format))
  let bodyRows :=
    dataframe.rows.map (fun r => r.map (fun v => Cell.mk (writeValue v) none))
  { sheets :=
      [{ name := "Extracted Data",
         grid := (if dataframe.columns.isEmpty then [] else [headerRow]) ++ bodyRows,
         columnSpecs :=
           [{ range := "A:A", width := 30, cformat := body_format },
            { range := "B:B", width := 50, cformat := body_format },
            { range := "C:C", width := 40, cformat := body_format }] }] }

/-- Rendering an ExtractionResult: the DataFrame construction of lines
156-158 followed by create_formatted_excel, as in the handler. -/
def renderRecords (entries : List DataPoint) : Workbook :=
  create_formatted_excel (recordsToDataFrame entries)

/-- The populated grid of the single sheet of a workbook. -/
def gridOf (wb : Workbook) : List (List Cell) :=
  match wb.sheets with
  | [ws] => ws.grid
  | _ => []

/-- All cell values of a workbook, sheet by sheet, row by row. -/
def cellValues (wb : Workbook) : List (List (List (Option String))) :=
  wb.sheets.map (fun ws => ws.grid.map (fun row => row.map Cell.value))

/-- All cell-level formats of a workbook, sheet by sheet, row by row. -/
def cellStyles (wb : Workbook) : List (List (List (Option CellFormat))) :=
  wb.sheets.map (fun ws => ws.grid.map (fun row => row.map Cell.format))

/-- The column specifications of every sheet. -/
def columnLayout (wb : Workbook) : List (List ColumnSpec) :=
  wb.sheets.map Worksheet.columnSpecs

/-- Reassembling a record from the read-back values of one body row. -/
def rowToRecord : List (Option String) → Option DataPoint
  | [some k, some v, c] => some { key := k, value := v, comments := c }
  | _ => none

/-- Reading back the cell values of the body rows (everything below the
header row) of the produced sheet, as records. -/
def readBackRecords (wb : Workbook) : List DataPoint :=
  ((gridOf wb).drop 1).filterMap (fun row => rowToRecord (row.map Cell.value))

/-- The body-row cell values of the produced sheet. -/
def bodyRowValues (wb : Workbook) : List (List (Option String)) :=
  ((gridOf wb).drop 1).map (fun row => row.map Cell.value)

/-- The user-visible outcome of one run of the Streamlit script. -/
inductive UiOutcome where
  | noUpload
  | warning (msg : String)
  | idle
  | success (preview : DataFrame) (excel : Workbook)
  | failure (msg : String)
deriving DecidableEq, Repr

/-- Whether an outcome carries a downloadable spreadsheet. -/
def producesSpreadsheet : UiOutcome → Bool
  | UiOutcome.success _ _ => true
  | _ => false

/-- The textual description str(e) of a pypdf exception. -/
def pdfErrorStr : PdfError → String
  | PdfError.corrupt => "EOF marker not found"
  | PdfError.encrypted => "File has not been decrypted"

/-- process_document (src/app.py lines 34-73): builds the fixed prompt
and executes chain.invoke exactly once. The provider call is abstracted
as callModel (credential, document text) with its Except outcome; the
second component counts outbound requests made by the call (always 1:
there is no retry and no cache). -/
def process_document (callModel : String → String → Except String ExtractedData)
    (api_key : String) (text_content : String) :
    Except String ExtractedData × Nat :=
  (callModel api_key text_content, 1)

/-- The process-button handler (src/app.py lines 143-177). With no file
uploaded nothing runs; with a file but an empty key only a warning is
shown (the button is not even rendered, so no stage runs); otherwise the
try block runs extraction, the model call, the DataFrame build and the
rendering, and any stage failure is caught and shown as the single
message built from str(e). The Nat counts outbound model requests. -/
def main_handler (callModel : String → String → Except String ExtractedData)
    (api_key : String) (uploaded_file : Option PdfInput) (buttonPressed : Bool) :
    UiOutcome × Nat :=
  match uploaded_file with
  | none => (UiOutcome.noUpload, 0)
  | some pdf =>
    if api_key = "" then
      (UiOutcome.warning "Please enter your OpenAI API Key in the sidebar to proceed.", 0)
    else if buttonPressed then
      match get_pdf_text pdf with
      | Except.error e =>
          (UiOutcome.failure ("An error occurred during processing: " ++ pdfErrorStr e), 0)
      | Except.ok raw_text =>
          match process_document callModel api_key raw_text with
          | (Except.error e, n) =>
              (UiOutcome.failure ("An error occurred during processing: " ++ e), n)
          | (Except.ok result, n) =>
              let df := recordsToDataFrame result.entries
              (UiOutcome.success df (create_formatted_excel df), n)
    else
      (UiOutcome.idle, 0)

/-! Shared helper lemmas. -/

/-- The source loop, started from any accumulator, appends the joined
page texts to it. -/
theorem foldl_append_eq_pagesJoined (pages : List String) (acc : String) :
    pages.foldl (fun text page => text ++ (page ++ "\n")) acc
      = acc ++ pagesJoined pages := by
  induction pages generalizing acc with
  | nil => simp [pagesJoined, String.append_empty]
  | cons p ps ih => simp [pagesJoined, ih, String.append_assoc]

/-- When no page text contains the separator, the joined text holds one
separator per page. -/
theorem numSegments_pagesJoined (pages : List String)
    (h : ∀ p ∈ pages, '\n' ∉ p.data) :
    numSegments (pagesJoined pages) = pages.length := by
  induction pages with
  | nil => rfl
  | cons p ps ih =>
    have hp : '\n' ∉ p.data := h p (by simp)
    have hps : ∀ q ∈ ps, '\n' ∉ q.data := fun q hq => h q (by simp [hq])
    simp [pagesJoined, numSegments, String.data_append, List.count_append,
      List.count_eq_zero.mpr hp] at *
    simpa [numSegments] using ih hps

/-- For records with no empty-string field, reassembling records from
the rendered body-row cells is the identity: the write() dispatch leaves
all their field values intact. -/
theorem readBack_body (l : List DataPoint)
    (h : ∀ d ∈ l, d.key ≠ "" ∧ d.value ≠ "" ∧ d.comments ≠ some "") :
    (l.map (fun d => [Cell.mk (writeValue (some d.key)) none,
        Cell.mk (writeValue (some d.value)) none,
        Cell.mk (writeValue d.comments) none])).filterMap
      (fun row => rowToRecord (row.map Cell.value)) = l := by
  induction l with
  | nil => rfl
  | cons d ds ih =>
    obtain ⟨hk, hv, hc⟩ := h d (List.mem_cons_self d ds)
    have hds : ∀ a ∈ ds, a.key ≠ "" ∧ a.value ≠ "" ∧ a.comments ≠ some "" :=
      fun a ha => h a (List.mem_cons_of_mem d ha)
    have h1 : writeValue (some d.key) = some d.key := by simp [writeValue, hk]
    have h2 : writeValue (some d.value) = some d.value := by simp [writeValue, hv]
    have h3 : writeValue d.comments = d.comments := by
      cases hcm : d.comments with
      | none => rfl
      | some s =>
        have hs : s ≠ "" := fun e => hc (by rw [hcm, e])
        simp [writeValue, hs]
    simp only [List.map_cons, List.filterMap_cons, List.map_nil, h1, h2, h3]
    rw [ih hds]
    rfl

/-! Claim theorems. -/

/-- C1 (amended): rendering a non-empty record list of K records yields a
workbook with exactly one sheet whose populated grid has K+1 rows, every
row has 3 cells, and row 0 holds the header cells key, value, comments in
that order with the header format. (For K = 0 the claim fails: see the
counterexample, the sheet is empty because the DataFrame built from an
empty record list has no columns.) -/
theorem c1_render_shape (entries : List DataPoint) (h : entries ≠ []) :
    (renderRecords entries).sheets.length = 1
    ∧ (gridOf (renderRecords entries)).length = entries.length + 1
    ∧ (∀ row ∈ gridOf (renderRecords entries), row.length = 3)
    ∧ (gridOf (renderRecords entries)).head?
        = some [Cell.mk (some "key") (some header_format),
                Cell.mk (some "value") (some header_format),
                Cell.mk (some "comments") (some header_format)] := by
  cases entries with
  | nil => exact absurd rfl h
  | cons d ds =>
    refine ⟨rfl, ?_, ?_, rfl⟩
    · simp [renderRecords, recordsToDataFrame, create_formatted_excel, gridOf]
    · intro row hrow
      have hg : gridOf (renderRecords (d :: ds))
          = (["key", "value", "comments"].map
              (fun c => Cell.mk (writeValue (some c)) (some header_format)))
            :: ((d :: ds).map (fun a => [some a.key, some a.value, a.comments])).map
                (fun r => r.map (fun v => Cell.mk (writeValue v) none)) := rfl
      rw [hg] at hrow
      rcases List.mem_cons.mp hrow with h1 | h2
      · rw [h1]; rfl
      · rcases List.mem_map.mp h2 with ⟨r, hr, hrow2⟩
        rcases List.mem_map.mp hr with ⟨a, _, hra⟩
        rw [← hrow2, ← hra]; rfl

/-- C1 witness: one record renders to one sheet with 2 populated rows of
3 cells and the key, value, comments header. -/
theorem c1_render_shape_witness :
    (renderRecords [{ key := "Name", value := "Alice", comments := none }]).sheets.length = 1
    ∧ (gridOf (renderRecords [{ key := "Name", value := "Alice", comments := none }])).length = 2
    ∧ (∀ row ∈ gridOf (renderRecords [{ key := "Name", value := "Alice", comments := none }]),
        row.length = 3)
    ∧ (gridOf (renderRecords [{ key := "Name", value := "Alice", comments := none }])).head?
        = some [Cell.mk (some "key") (some header_format),
                Cell.mk (some "value") (some header_format),
                Cell.mk (some "comments") (some header_format)] :=
  c1_render_shape [{ key := "Name", value := "Alice", comments := none }]
    (List.cons_ne_nil _ _)

/-- C1 counterexample: with K = 0 records the produced sheet has zero
populated rows, not K+1 = 1, and no columns at all, because
pd.DataFrame of an empty list has no columns so to_excel writes nothing
and the header loop runs zero times. -/
theorem c1_counterexample :
    gridOf (renderRecords []) = []
    ∧ (gridOf (renderRecords [])).length ≠ 0 + 1 :=
  ⟨rfl, by decide⟩

/-- C2 (amended): the extractor output equals the concatenation, in page
order, of each page text followed by one newline separator (an empty
page text contributes the empty string at its position); and when no
page text itself contains the separator character, the output holds
exactly N separator-delimited segments for N pages. (Unconditionally the
segment count can exceed N: see the counterexample.) -/
theorem c2_text_shape (pages : List String) :
    get_pdf_text (PdfInput.doc pages) = Except.ok (pagesJoined pages)
    ∧ ((∀ p ∈ pages, '\n' ∉ p.data) →
        numSegments (pagesJoined pages) = pages.length) := by
  refine ⟨?_, numSegments_pagesJoined pages⟩
  simp [get_pdf_text, foldl_append_eq_pagesJoined, String.empty_append]

/-- C2 witness: the two-page scenario from the spec yields the two texts
joined in order with 2 segments. -/
theorem c2_text_shape_witness :
    get_pdf_text (PdfInput.doc ["Name: Alice", "Role: Engineer"])
      = Except.ok (pagesJoined ["Name: Alice", "Role: Engineer"])
    ∧ numSegments (pagesJoined ["Name: Alice", "Role: Engineer"]) = 2 :=
  ⟨(c2_text_shape ["Name: Alice", "Role: Engineer"]).1,
   (c2_text_shape ["Name: Alice", "Role: Engineer"]).2 (by decide)⟩

/-- C2 counterexample: a single page whose extracted text contains a
newline produces output with 2 separator-delimited segments, not
exactly N = 1, because the page-internal newline is indistinguishable
from the page separator. -/
theorem c2_counterexample :
    get_pdf_text (PdfInput.doc ["a\nb"]) = Except.ok "a\nb\n"
    ∧ ["a\nb"].length = 1
    ∧ numSegments "a\nb\n" ≠ 1 :=
  ⟨rfl, rfl, by decide⟩

/-- C3: with a missing (empty) credential and an uploaded file, the
handler short-circuits before any stage runs: it signals the
missing-credential condition as a warning message and the count of
outbound model requests is zero, whatever the model stub and whatever
the button state. -/
theorem c3_missing_key (callModel : String → String → Except String ExtractedData)
    (pdf : PdfInput) (pressed : Bool) :
    main_handler callModel "" (some pdf) pressed
      = (UiOutcome.warning "Please enter your OpenAI API Key in the sidebar to proceed.", 0)
    ∧ producesSpreadsheet (main_handler callModel "" (some pdf) pressed).1 = false :=
  ⟨rfl, rfl⟩

/-- C4: when any stage fails, the handler outcome is the single message
built from the textual description of the failure, no spreadsheet is
produced, and in particular a model-call failure after successful PDF
extraction still yields no spreadsheet. -/
theorem c4_stage_failure (callModel : String → String → Except String ExtractedData)
    (api_key : String) (pdf : PdfInput) (hk : api_key ≠ "") :
    (∀ e, get_pdf_text pdf = Except.error e →
      main_handler callModel api_key (some pdf) true
        = (UiOutcome.failure ("An error occurred during processing: " ++ pdfErrorStr e), 0))
    ∧ (∀ t m, get_pdf_text pdf = Except.ok t → callModel api_key t = Except.error m →
      main_handler callModel api_key (some pdf) true
        = (UiOutcome.failure ("An error occurred during processing: " ++ m), 1))
    ∧ (∀ msg, producesSpreadsheet (UiOutcome.failure msg) = false) := by
  refine ⟨?_, ?_, fun msg => rfl⟩
  · intro e he
    simp [main_handler, hk, he]
  · intro t m ht hm
    simp [main_handler, hk, ht, process_document, hm]

/-- C4 witness: a corrupt PDF, and a model failure after successful
extraction, each end in the single failure message with no spreadsheet. -/
theorem c4_stage_failure_witness :
    main_handler (fun _ _ => Except.error "boom") "k"
        (some (PdfInput.invalid PdfError.corrupt)) true
      = (UiOutcome.failure ("An error occurred during processing: "
          ++ pdfErrorStr PdfError.corrupt), 0)
    ∧ main_handler (fun _ _ => Except.error "boom") "k"
        (some (PdfInput.doc ["hi"])) true
      = (UiOutcome.failure ("An error occurred during processing: " ++ "boom"), 1) :=
  ⟨(c4_stage_failure (fun _ _ => Except.error "boom") "k"
      (PdfInput.invalid PdfError.corrupt) (by decide)).1 PdfError.corrupt rfl,
   (c4_stage_failure (fun _ _ => Except.error "boom") "k"
      (PdfInput.doc ["hi"]) (by decide)).2.1 "hi\n" "boom" rfl rfl⟩

/-- C5 (amended): create_formatted_excel performs no schema validation at
all: for every row collection, whatever its columns, it produces a
single-sheet workbook (a header row exactly when the frame has columns,
plus one row per data row); it never fails with a RenderError. -/
theorem c5_no_schema_validation (df : DataFrame) :
    (create_formatted_excel df).sheets.length = 1
    ∧ (gridOf (create_formatted_excel df)).length
        = (if df.columns.isEmpty then 0 else 1) + df.rows.length := by
  refine ⟨rfl, ?_⟩
  cases h : df.columns.isEmpty <;>
    simp [create_formatted_excel, gridOf, h, Nat.add_comm]

/-- C5 witness: a one-column frame with no rows still renders to a
single-sheet workbook. -/
theorem c5_no_schema_validation_witness :
    (create_formatted_excel (DataFrame.mk ["k"] [])).sheets.length = 1
    ∧ (gridOf (create_formatted_excel (DataFrame.mk ["k"] []))).length
        = (if (DataFrame.mk ["k"] ([] : List (List (Option String)))).columns.isEmpty
           then 0 else 1) + 0 :=
  c5_no_schema_validation (DataFrame.mk ["k"] [])

/-- C5 counterexample: a two-column row collection, not matching the
key, value, comments schema, is rendered to a full spreadsheet (header
row plus body row) instead of failing. -/
theorem c5_counterexample :
    (DataFrame.mk ["a", "b"] [[some "x", some "y"]]).columns ≠ ["key", "value", "comments"]
    ∧ (create_formatted_excel (DataFrame.mk ["a", "b"] [[some "x", some "y"]])).sheets.length = 1
    ∧ gridOf (create_formatted_excel (DataFrame.mk ["a", "b"] [[some "x", some "y"]]))
        = [[Cell.mk (some "a") (some header_format), Cell.mk (some "b") (some header_format)],
           [Cell.mk (some "x") none, Cell.mk (some "y") none]] :=
  ⟨by decide, rfl, by decide⟩

/-- C6 (amended): a stream the reader cannot parse (corrupt, encrypted)
makes get_pdf_text fail with the propagated error; but a parseable PDF
with zero pages is not an error: the result is the empty string. -/
theorem c6_parse_failure (e : PdfError) :
    get_pdf_text (PdfInput.invalid e) = Except.error e
    ∧ get_pdf_text (PdfInput.doc []) = Except.ok "" :=
  ⟨rfl, rfl⟩

/-- C6 counterexample: a zero-page PDF parses, the page loop runs zero
times, and get_pdf_text returns the empty string instead of failing. -/
theorem c6_counterexample :
    get_pdf_text (PdfInput.doc []) = Except.ok "" :=
  rfl

/-- C7: rendering is deterministic: two invocations on equal inputs
yield workbooks with identical cell values, identical cell styles and
identical column layout; the renderer takes no input other than the
row collection (no clock, no randomness). -/
theorem c7_render_deterministic (df1 df2 : DataFrame) (h : df1 = df2) :
    cellValues (create_formatted_excel df1) = cellValues (create_formatted_excel df2)
    ∧ cellStyles (create_formatted_excel df1) = cellStyles (create_formatted_excel df2)
    ∧ columnLayout (create_formatted_excel df1) = columnLayout (create_formatted_excel df2) := by
  subst h
  exact ⟨rfl, rfl, rfl⟩

/-- C7 witness: two renders of the same one-record frame agree on
values, styles and layout. -/
theorem c7_render_deterministic_witness :
    cellValues (create_formatted_excel (recordsToDataFrame
        [{ key := "Name", value := "Alice", comments := none }]))
      = cellValues (create_formatted_excel (recordsToDataFrame
        [{ key := "Name", value := "Alice", comments := none }]))
    ∧ cellStyles (create_formatted_excel (recordsToDataFrame
        [{ key := "Name", value := "Alice", comments := none }]))
      = cellStyles (create_formatted_excel (recordsToDataFrame
        [{ key := "Name", value := "Alice", comments := none }]))
    ∧ columnLayout (create_formatted_excel (recordsToDataFrame
        [{ key := "Name", value := "Alice", comments := none }]))
      = columnLayout (create_formatted_excel (recordsToDataFrame
        [{ key := "Name", value := "Alice", comments := none }])) :=
  c7_render_deterministic _ _ rfl

/-- C8 (amended): reading back the body-row cell values of the rendered
workbook reproduces the original record list exactly, for every record
list (including the empty one) in which no key, value or comments field
is the empty string. (An empty-string field is routed to write_blank by
the write() dispatch and reads back as missing, not as the string: see
the counterexample.) -/
theorem c8_round_trip (entries : List DataPoint)
    (h : ∀ d ∈ entries, d.key ≠ "" ∧ d.value ≠ "" ∧ d.comments ≠ some "") :
    readBackRecords (renderRecords entries) = entries := by
  cases entries with
  | nil => rfl
  | cons d ds =>
    simp only [renderRecords, recordsToDataFrame, create_formatted_excel,
      readBackRecords, gridOf]
    simpa using readBack_body (d :: ds) h

/-- C8 witness: a record list with non-empty fields round-trips through
the rendered sheet unchanged. -/
theorem c8_round_trip_witness :
    readBackRecords (renderRecords
        [{ key := "Name", value := "Alice", comments := none },
         { key := "Role", value := "Engineer", comments := some "note" }])
      = [{ key := "Name", value := "Alice", comments := none },
         { key := "Role", value := "Engineer", comments := some "note" }] :=
  c8_round_trip
    [{ key := "Name", value := "Alice", comments := none },
     { key := "Role", value := "Engineer", comments := some "note" }]
    (by decide)

/-- C8 counterexample: a record whose comments field is the empty string
reads back with comments missing, not the original string: the write()
dispatch stores the empty string as a blank cell, so the text content
does not round-trip losslessly. -/
theorem c8_counterexample :
    readBackRecords (renderRecords [{ key := "k", value := "v", comments := some "" }])
      = [{ key := "k", value := "v", comments := none }]
    ∧ readBackRecords (renderRecords [{ key := "k", value := "v", comments := some "" }])
      ≠ [{ key := "k", value := "v", comments := some "" }] :=
  ⟨rfl, by decide⟩

/-- C9: extraction is a pure transformation of the stream bytes: the
result depends only on the byte content (equal bytes give equal
results), the bytes of the input stream are unchanged by the run, and
the result equals the pure function of the bytes. -/
theorem c9_extraction_pure (parse : List Nat → PdfInput) (s1 s2 : ByteStream)
    (h : s1.data = s2.data) :
    (get_pdf_textS parse s1).1 = (get_pdf_textS parse s2).1
    ∧ ((get_pdf_textS parse s1).2).data = s1.data
    ∧ (get_pdf_textS parse s1).1 = get_pdf_text (parse s1.data) := by
  simp [get_pdf_textS, readPdf, h]

/-- C9 witness: two streams with the same bytes at different positions
give the same text, and the bytes survive the run unchanged. -/
theorem c9_extraction_pure_witness :
    (get_pdf_textS (fun _ => PdfInput.doc ["x"]) { data := [7, 8], pos := 0 }).1
      = (get_pdf_textS (fun _ => PdfInput.doc ["x"]) { data := [7, 8], pos := 1 }).1
    ∧ ((get_pdf_textS (fun _ => PdfInput.doc ["x"]) { data := [7, 8], pos := 0 }).2).data
      = [7, 8] := by
  have h := c9_extraction_pure (fun _ => PdfInput.doc ["x"])
    { data := [7, 8], pos := 0 } { data := [7, 8], pos := 1 } rfl
  exact ⟨h.1, h.2.1⟩

/-- C10 (amended): every body row of the rendered sheet carries the
record fields through the write() dispatch: key and value render as
present string cells whenever they are non-empty strings (an empty
string, which the str schema permits, is stored as a blank valueless
cell instead), and a record whose comments field is none is rendered as
a blank comments cell, identical to the blank produced for an
empty-string comments field and so indistinguishable from absent text. -/
theorem c10_body_cells (entries : List DataPoint) :
    bodyRowValues (renderRecords entries)
      = entries.map (fun d => [writeValue (some d.key), writeValue (some d.value),
          writeValue d.comments])
    ∧ (∀ d : DataPoint, d.key ≠ "" → d.value ≠ "" →
        bodyRowValues (renderRecords [d])
          = [[some d.key, some d.value, writeValue d.comments]])
    ∧ (∀ d : DataPoint, d.comments = none →
        writeValue d.comments = none ∧ writeValue d.comments = writeValue (some "")) := by
  refine ⟨?_, ?_, ?_⟩
  · cases entries with
    | nil => rfl
    | cons d ds =>
      simp only [renderRecords, recordsToDataFrame, create_formatted_excel,
        bodyRowValues, gridOf]
      simp [List.map_map, Function.comp]
  · intro d hk hv
    simp [bodyRowValues, renderRecords, recordsToDataFrame, create_formatted_excel,
      gridOf, writeValue, hk, hv]
  · intro d hd
    rw [hd]
    exact ⟨rfl, rfl⟩

/-- C10 witness: a record with non-empty key and value and comments none
renders with present key and value string cells and a blank comments
cell. -/
theorem c10_body_cells_witness :
    bodyRowValues (renderRecords [{ key := "Name", value := "Alice", comments := none }])
      = [[some "Name", some "Alice", writeValue none]] :=
  (c10_body_cells [{ key := "Name", value := "Alice", comments := none }]).2.1
    { key := "Name", value := "Alice", comments := none } (by decide) (by decide)

/-- C10 counterexample: a record whose value field is the empty string
(a legal str value) renders a blank valueless cell in the value column,
so the value cell of a body row is not always a string cell. -/
theorem c10_counterexample :
    bodyRowValues (renderRecords [{ key := "k", value := "", comments := none }])
      = [[some "k", none, none]]
    ∧ [[some "k", (none : Option String), none]] ≠ [[some "k", some "", none]] :=
  ⟨rfl, by decide⟩
